import Mathlib

/-!
Verification of the Recording Session Manager of `super-whisper`
(`src/src-tauri/src/lib.rs`).

The development shallowly embeds the parts of `lib.rs` that the claims
concern: the line-delimited JSON protocol codec (commands encoded with
`serde_json` and written by `send_daemon_command`; worker output lines
decoded field-by-field in the reader thread spawned by `start_daemon`),
and the session state machine driven by the global-shortcut press and
release handlers (`setup_global_shortcut`), the reader-loop termination,
and the startup model-load step in `run`.

JSON numbers are modelled as exact decimal values `mantissa / 10 ^ exp10`
(the `f64` conversion `as_f64` is treated as exact on decimal literals);
a `toRat` meaning function relates them to rational values.
-/

/-! ## JSON values (model of `serde_json::Value`) -/

/-- Characters that are awkward to write literally are named. -/
def quoteChar : Char := Char.ofNat 34

/-- Backslash character. -/
def backslashChar : Char := Char.ofNat 92

/-- Left curly bracket character. -/
def lbraceChar : Char := Char.ofNat 123

/-- Right curly bracket character. -/
def rbraceChar : Char := Char.ofNat 125

/-- An exact decimal number `mantissa / 10 ^ exp10`, the model of a JSON
number literal (and of the `f64` obtained from it by `as_f64`). -/
structure JNumber where
  mantissa : Int
  exp10 : Nat
deriving DecidableEq, Repr

/-- Rational meaning of a decimal number. -/
def JNumber.toRat (n : JNumber) : Rat := (n.mantissa : Rat) / (10 : Rat) ^ n.exp10

/-- Model of `serde_json::Value`. Object member lists keep duplicates in
source order; lookup takes the last binding, matching the overwrite
behaviour of the `serde_json` map on duplicate keys. -/
inductive Json where
  | null : Json
  | bool (b : Bool) : Json
  | num (n : JNumber) : Json
  | str (s : String) : Json
  | arr (elems : List Json) : Json
  | obj (members : List (String × Json)) : Json

/-- Model of `Value::get(key)`: `some` only on objects that contain the
key; duplicate keys resolve to the last occurrence. -/
def jget (j : Json) (key : String) : Option Json :=
  match j with
  | Json.obj members => ((members.filter (fun p => p.1 == key)).getLast?).map (fun p => p.2)
  | _ => none

/-- Model of `Value::as_f64` (total on numbers in this exact model). -/
def Json.asF64 : Json → Option JNumber
  | Json.num n => some n
  | _ => none

/-- Model of `Value::as_str`. -/
def Json.asStr : Json → Option String
  | Json.str s => some s
  | _ => none

/-- Model of `Value::as_bool`. -/
def Json.asBool : Json → Option Bool
  | Json.bool b => some b
  | _ => none

/-! ## JSON parser (model of `serde_json::from_str::<Value>`) -/

/-- Skip JSON whitespace (space, tab, line feed, carriage return). -/
def skipWs : List Char → List Char
  | [] => []
  | c :: rest =>
    if c = ' ' ∨ c = Char.ofNat 9 ∨ c = Char.ofNat 10 ∨ c = Char.ofNat 13 then skipWs rest
    else c :: rest

/-- Value of a hexadecimal digit. -/
def hexVal (c : Char) : Option Nat :=
  if '0' ≤ c ∧ c ≤ '9' then some (c.toNat - 48)
  else if 'a' ≤ c ∧ c ≤ 'f' then some (c.toNat - 87)
  else if 'A' ≤ c ∧ c ≤ 'F' then some (c.toNat - 70)
  else none

/-- Parse the body of a JSON string after the opening quote, handling the
escape sequences accepted by `serde_json` (including surrogate pairs) and
rejecting raw control characters. Returns the string and the rest of the
input after the closing quote. -/
def parseStrAux : List Char → List Char → Option (String × List Char)
  | _, [] => none
  | acc, c :: rest =>
    if c = quoteChar then some (String.mk acc.reverse, rest)
    else if c = backslashChar then
      match rest with
      | [] => none
      | e :: rest2 =>
        if e = quoteChar then parseStrAux (quoteChar :: acc) rest2
        else if e = backslashChar then parseStrAux (backslashChar :: acc) rest2
        else if e = '/' then parseStrAux ('/' :: acc) rest2
        else if e = 'b' then parseStrAux (Char.ofNat 8 :: acc) rest2
        else if e = 'f' then parseStrAux (Char.ofNat 12 :: acc) rest2
        else if e = 'n' then parseStrAux (Char.ofNat 10 :: acc) rest2
        else if e = 'r' then parseStrAux (Char.ofNat 13 :: acc) rest2
        else if e = 't' then parseStrAux (Char.ofNat 9 :: acc) rest2
        else if e = 'u' then
          match rest2 with
          | h1 :: h2 :: h3 :: h4 :: rest6 =>
            match hexVal h1, hexVal h2, hexVal h3, hexVal h4 with
            | some v1, some v2, some v3, some v4 =>
              let n := ((v1 * 16 + v2) * 16 + v3) * 16 + v4
              if 55296 ≤ n ∧ n ≤ 56319 then
                match rest6 with
                | b1 :: u1 :: g1 :: g2 :: g3 :: g4 :: rest12 =>
                  if b1 = backslashChar ∧ u1 = 'u' then
                    match hexVal g1, hexVal g2, hexVal g3, hexVal g4 with
                    | some w1, some w2, some w3, some w4 =>
                      let m := ((w1 * 16 + w2) * 16 + w3) * 16 + w4
                      if 56320 ≤ m ∧ m ≤ 57343 then
                        parseStrAux
                          (Char.ofNat (65536 + (n - 55296) * 1024 + (m - 56320)) :: acc) rest12
                      else none
                    | _, _, _, _ => none
                  else none
                | _ => none
              else if 56320 ≤ n ∧ n ≤ 57343 then none
              else parseStrAux (Char.ofNat n :: acc) rest6
            | _, _, _, _ => none
          | _ => none
        else none
    else if c.toNat < 32 then none
    else parseStrAux (c :: acc) rest

/-- Take leading decimal digits. -/
def takeDigits : List Char → List Char × List Char
  | [] => ([], [])
  | c :: rest =>
    if c.isDigit then
      let (ds, r) := takeDigits rest
      (c :: ds, r)
    else ([], c :: rest)

/-- Numeric value of a digit list. -/
def natOfDigits (ds : List Char) : Nat :=
  ds.foldl (fun acc c => acc * 10 + (c.toNat - 48)) 0

/-- Parse an optional fraction part `.digits`; a dot with no digits is an
error, no dot yields an empty digit list. -/
def parseFracPart : List Char → Option (List Char × List Char)
  | [] => some ([], [])
  | c :: rest =>
    if c = '.' then
      let (ds, r) := takeDigits rest
      if ds.isEmpty then none else some (ds, r)
    else some ([], c :: rest)

/-- Parse an optional exponent part `(e|E)(+|-)?digits`. -/
def parseExpPart : List Char → Option (Int × List Char)
  | [] => some (0, [])
  | c :: rest =>
    if c = 'e' ∨ c = 'E' then
      match rest with
      | [] => none
      | s :: rest2 =>
        if s = '+' then
          let (ds, r) := takeDigits rest2
          if ds.isEmpty then none else some ((natOfDigits ds : Int), r)
        else if s = '-' then
          let (ds, r) := takeDigits rest2
          if ds.isEmpty then none else some (-(natOfDigits ds : Int), r)
        else
          let (ds, r) := takeDigits (s :: rest2)
          if ds.isEmpty then none else some ((natOfDigits ds : Int), r)
    else some (0, c :: rest)

/-- Parse a JSON number per the strict grammar `serde_json` accepts
(no leading zeros, fraction and exponent digits required when the marker
is present), as an exact decimal. -/
def parseNumber (cs : List Char) : Option (JNumber × List Char) :=
  let (neg, cs1) :=
    match cs with
    | c :: r => if c = '-' then (true, r) else (false, cs)
    | [] => (false, cs)
  let (intDs, cs2) := takeDigits cs1
  if intDs.isEmpty then none
  else if intDs.length > 1 ∧ intDs.headD ' ' = '0' then none
  else
    match parseFracPart cs2 with
    | none => none
    | some (fracDs, cs3) =>
      match parseExpPart cs3 with
      | none => none
      | some (e, cs4) =>
        let mant : Int := (natOfDigits intDs * 10 ^ fracDs.length + natOfDigits fracDs : Nat)
        let mant : Int := if neg then -mant else mant
        let n : JNumber :=
          if 0 ≤ e then ⟨mant * 10 ^ e.toNat, fracDs.length⟩
          else ⟨mant, fracDs.length + (-e).toNat⟩
        some (n, cs4)

/-- Task of the fuel-indexed parser: a single value, the remaining items
of an array (after `[` or a comma), or the remaining members of an object
(after the opening curly bracket or a comma). -/
inductive PTask where
  | value : PTask
  | arrItems (acc : List Json) : PTask
  | objItems (acc : List (String × Json)) : PTask

/-- Fuel-indexed recursive-descent JSON parser. The fuel only bounds the
recursion depth; `parseJson` supplies fuel ample for its input. -/
def parseF : Nat → PTask → List Char → Option (Json × List Char)
  | 0, _, _ => none
  | Nat.succ fuel, PTask.value, cs =>
    match skipWs cs with
    | [] => none
    | c :: rest =>
      if c = quoteChar then
        match parseStrAux [] rest with
        | some (s, r) => some (Json.str s, r)
        | none => none
      else if c = 'n' then
        match rest with
        | 'u' :: 'l' :: 'l' :: r => some (Json.null, r)
        | _ => none
      else if c = 't' then
        match rest with
        | 'r' :: 'u' :: 'e' :: r => some (Json.bool true, r)
        | _ => none
      else if c = 'f' then
        match rest with
        | 'a' :: 'l' :: 's' :: 'e' :: r => some (Json.bool false, r)
        | _ => none
      else if c = '[' then
        match skipWs rest with
        | c2 :: r2 =>
          if c2 = ']' then some (Json.arr [], r2)
          else parseF fuel (PTask.arrItems []) (c2 :: r2)
        | [] => none
      else if c = lbraceChar then
        match skipWs rest with
        | c2 :: r2 =>
          if c2 = rbraceChar then some (Json.obj [], r2)
          else parseF fuel (PTask.objItems []) (c2 :: r2)
        | [] => none
      else
        match parseNumber (c :: rest) with
        | some (n, r) => some (Json.num n, r)
        | none => none
  | Nat.succ fuel, PTask.arrItems acc, cs =>
    match parseF fuel PTask.value cs with
    | some (j, cs1) =>
      (match skipWs cs1 with
       | c :: r =>
         if c = ',' then parseF fuel (PTask.arrItems (acc ++ [j])) r
         else if c = ']' then some (Json.arr (acc ++ [j]), r)
         else none
       | [] => none)
    | none => none
  | Nat.succ fuel, PTask.objItems acc, cs =>
    match skipWs cs with
    | c :: rest =>
      if c = quoteChar then
        match parseStrAux [] rest with
        | some (k, cs1) =>
          (match skipWs cs1 with
           | c2 :: r2 =>
             if c2 = ':' then
               match parseF fuel PTask.value r2 with
               | some (v, cs2) =>
                 (match skipWs cs2 with
                  | c3 :: r3 =>
                    if c3 = ',' then parseF fuel (PTask.objItems (acc ++ [(k, v)])) r3
                    else if c3 = rbraceChar then some (Json.obj (acc ++ [(k, v)]), r3)
                    else none
                  | [] => none)
               | none => none
             else none
           | [] => none)
        | none => none
      else none
    | [] => none

/-- Model of `serde_json::from_str::<serde_json::Value>` on one line:
parse a single JSON value and require only whitespace to remain. -/
def parseJson (s : String) : Option Json :=
  match parseF (2 * s.length + 4) PTask.value s.data with
  | some (j, rest) => if (skipWs rest).isEmpty then some j else none
  | none => none

/-! ## Outbound commands (model of the `serde_json::json!` command values
and their serialization in `send_daemon_command`) -/

/-- The three protocol commands built by the press handler, the release
handler and the startup sequence. -/
inductive ProtocolCommand where
  | startRecording (deviceId : Option Int) : ProtocolCommand
  | stopAndTranscribe (output : String) : ProtocolCommand
  | loadModel (model : String) : ProtocolCommand
deriving DecidableEq, Repr

/-- Hexadecimal digit character (lowercase), for control-character
escapes. -/
def hexDigitChar (n : Nat) : Char :=
  if n < 10 then Char.ofNat (48 + n) else Char.ofNat (87 + n)

/-- Escaping of one character inside a JSON string, as `serde_json`
serialization performs it. -/
def escapeChar (c : Char) : List Char :=
  if c = quoteChar then [backslashChar, quoteChar]
  else if c = backslashChar then [backslashChar, backslashChar]
  else if c = Char.ofNat 8 then [backslashChar, 'b']
  else if c = Char.ofNat 12 then [backslashChar, 'f']
  else if c = Char.ofNat 10 then [backslashChar, 'n']
  else if c = Char.ofNat 13 then [backslashChar, 'r']
  else if c = Char.ofNat 9 then [backslashChar, 't']
  else if c.toNat < 32 then
    [backslashChar, 'u', '0', '0', hexDigitChar (c.toNat / 16), hexDigitChar (c.toNat % 16)]
  else [c]

/-- A string serialized as a quoted JSON string literal. -/
def encodeJsonString (s : String) : String :=
  String.mk (quoteChar :: (s.data.flatMap escapeChar) ++ [quoteChar])

/-- Model of `serde_json::to_string` on the three command values built
with `json!`. The `serde_json` map iterates keys in sorted order, which
for each command coincides with the written order (`cmd` before
`device`/`output`/`model`). -/
def encodeCommand : ProtocolCommand → String
  | ProtocolCommand.startRecording d =>
      "\x7b\"cmd\":\"start_recording\",\"device\":" ++
        (match d with
         | some n => toString n
         | none => "null") ++ "\x7d"
  | ProtocolCommand.stopAndTranscribe out =>
      "\x7b\"cmd\":\"stop_and_transcribe\",\"output\":" ++ encodeJsonString out ++ "\x7d"
  | ProtocolCommand.loadModel m =>
      "\x7b\"cmd\":\"load_model\",\"model\":" ++ encodeJsonString m ++ "\x7d"

/-! ## Inbound events (model of the field-by-field decoding in the
reader thread of `start_daemon`, lines 444-482) -/

/-- Typed events decoded from one worker output line. A line yields one
event per recognized field present with the right type (the reader's four
independent `if let` blocks), in source order: audio level, status,
text-with-metadata, error. -/
inductive ProtocolEvent where
  | audioLevel (value : JNumber) : ProtocolEvent
  | statusChanged (name : String) : ProtocolEvent
  | transcriptionResult (text : String) (copiedFlag typedFlag : Bool)
      (elapsedSeconds : JNumber) : ProtocolEvent
  | transcriptionError (message : String) : ProtocolEvent
deriving DecidableEq, Repr

/-- Decode of one parsed worker line: each recognized field
(`audio_level`, `status`, `text`, `error`) is examined independently; for
a `text` line the `copied` and `typed` flags default to `false` and
`transcription_time` defaults to `0.0` via `unwrap_or`. -/
def decodeLine (j : Json) : List ProtocolEvent :=
  (match (jget j "audio_level").bind Json.asF64 with
   | some v => [ProtocolEvent.audioLevel v]
   | none => []) ++
  (match (jget j "status").bind Json.asStr with
   | some n => [ProtocolEvent.statusChanged n]
   | none => []) ++
  (match (jget j "text").bind Json.asStr with
   | some t =>
       let elapsed := ((jget j "transcription_time").bind Json.asF64).getD ⟨0, 0⟩
       let copied := ((jget j "copied").bind Json.asBool).getD false
       let typed := ((jget j "typed").bind Json.asBool).getD false
       [ProtocolEvent.transcriptionResult t copied typed elapsed]
   | none => []) ++
  (match (jget j "error").bind Json.asStr with
   | some m => [ProtocolEvent.transcriptionError m]
   | none => [])

/-! ## UI notifications and side effects -/

/-- One-way notifications emitted to the UI layer via `app.emit`. -/
inductive UiEvent where
  | recording_started : UiEvent
  | recording_stopped (duration : Nat) : UiEvent
  | transcription_started : UiEvent
  | transcription_done_ok (text : String) (copied typed : Bool) : UiEvent
  | transcription_done_err (error : String) : UiEvent
  | audio_level (value : JNumber) : UiEvent
  | model_ready : UiEvent
deriving DecidableEq, Repr

/-- Observable side effects of the handlers, in program order: UI
emissions, overlay window show/hide, a timed sleep, log lines, and writes
and flushes on the worker's stdin pipe. -/
inductive Effect where
  | emit (e : UiEvent) : Effect
  | overlayShow : Effect
  | overlayHide : Effect
  | sleepSecs (n : Nat) : Effect
  | logInfo (msg : String) : Effect
  | logWarn (msg : String) : Effect
  | logError (msg : String) : Effect
  | sinkWrite (line : String) : Effect
  | sinkFlush : Effect
deriving DecidableEq, Repr

/-- Whether an effect is a UI emission. -/
def Effect.isEmit : Effect → Bool
  | Effect.emit _ => true
  | _ => false

/-- Whether an effect is a write on the worker's stdin pipe. -/
def Effect.isSinkWrite : Effect → Bool
  | Effect.sinkWrite _ => true
  | _ => false

/-- Effects produced by the reader thread for one decoded event: the
audio level is forwarded to the UI; a status is logged and only
`"model_loaded"` triggers `model_ready`; a transcription result is logged
and emitted as `transcription_done` with text and flags; an error is
logged and emitted as `transcription_done` with empty text and the
message. -/
def renderEvent : ProtocolEvent → List Effect
  | ProtocolEvent.audioLevel v => [Effect.emit (UiEvent.audio_level v)]
  | ProtocolEvent.statusChanged n =>
      Effect.logInfo "Daemon status" ::
        (if n = "model_loaded" then [Effect.emit UiEvent.model_ready] else [])
  | ProtocolEvent.transcriptionResult t c ty _ =>
      [Effect.logInfo "Transcription result", Effect.logInfo "Transcription took",
       Effect.emit (UiEvent.transcription_done_ok t c ty)]
  | ProtocolEvent.transcriptionError m =>
      [Effect.logWarn "Daemon error", Effect.emit (UiEvent.transcription_done_err m)]

/-- All effects the reader thread produces for one parsed line. -/
def lineEffects (j : Json) : List Effect :=
  (decodeLine j).flatMap renderEvent

/-! ## Session state (model of `BackendState` and its handlers) -/

/-- Model of the `Config` struct; `typing_speed` is a decimal. -/
structure Config where
  device_id : Option Int
  sample_rate : Int
  model : String
  use_vad : Bool
  hotkey : String
  output_mode : String
  typing_speed : JNumber
  providers : List String
deriving DecidableEq, Repr

/-- `Config::default()`. -/
def defaultConfig : Config :=
  { device_id := none
    sample_rate := 16000
    model := "nemo-parakeet-tdt-0.6b-v3"
    use_vad := false
    hotkey := "alt+space"
    output_mode := "clipboard"
    typing_speed := ⟨1, 2⟩
    providers := ["CPUExecutionProvider"] }

/-- Model of `BackendState`. Timestamps (`Instant`) are abstract `Nat`
ticks. `daemon_stdin` models the cached `Option<ChildStdin>`: `none`
means no handle is cached; `some healthy` means a handle is cached, the
`Bool` recording whether writes to the pipe currently succeed. -/
structure BackendState where
  is_recording : Bool
  recording_start : Option Nat
  daemon_stdin : Option Bool
  config : Config
  model_loaded : Bool
deriving DecidableEq, Repr

/-- Model of `send_daemon_command`: serialize the command, write it as
one line (`writeln!` appends a single newline), then flush; a failed
write is logged and reported by the `false` result. The write is
attempted in either case. -/
def send_daemon_command (healthy : Bool) (cmd : ProtocolCommand) : Bool × List Effect :=
  let line := encodeCommand cmd ++ "\n"
  if healthy then (true, [Effect.sinkWrite line, Effect.sinkFlush])
  else (false, [Effect.sinkWrite line, Effect.logError "Failed to send command to daemon"])

/-- Model of the `ShortcutState::Pressed` task in `setup_global_shortcut`
(lines 529-565): if already recording, return; otherwise set the
recording flag and start timestamp, send `start_recording` with the
configured device when a stdin handle is cached (else log an error), log,
show the overlay and emit `recording_started`. -/
def on_press (now : Nat) (s : BackendState) : BackendState × List Effect :=
  if s.is_recording then (s, [])
  else
    let s' := { s with is_recording := true, recording_start := some now }
    let sendEffs :=
      match s'.daemon_stdin with
      | some healthy =>
          (send_daemon_command healthy (ProtocolCommand.startRecording s'.config.device_id)).2
      | none => [Effect.logError "Daemon not running!"]
    (s', sendEffs ++
      [Effect.logInfo "Recording started", Effect.overlayShow,
       Effect.emit UiEvent.recording_started])

/-- Model of the `ShortcutState::Released` task in `setup_global_shortcut`
(lines 567-611): if not recording, return; otherwise clear the recording
flag, compute the elapsed duration (the start timestamp is left in
place), emit `recording_stopped`, then either emit
`transcription_started` and send `stop_and_transcribe` when a stdin
handle is cached, or log an error, sleep one second and hide the
overlay. -/
def on_release (now : Nat) (s : BackendState) : BackendState × List Effect :=
  if !s.is_recording then (s, [])
  else
    let s' := { s with is_recording := false }
    let duration := (s'.recording_start.map (fun t => now - t)).getD 0
    let effs :=
      [Effect.logInfo "Recording stopped", Effect.emit (UiEvent.recording_stopped duration)]
    match s'.daemon_stdin with
    | some healthy =>
        (s', effs ++ Effect.emit UiEvent.transcription_started ::
          (send_daemon_command healthy
            (ProtocolCommand.stopAndTranscribe s'.config.output_mode)).2)
    | none =>
        (s', effs ++ [Effect.logError "Daemon not running!", Effect.sleepSecs 1,
          Effect.overlayHide])

/-- Model of one iteration of the reader thread in `start_daemon` for one
line of worker output: parse it as JSON and process each recognized field
independently; a line that fails to parse is skipped. The reader thread
never touches the shared `BackendState`. -/
def readerStep (s : BackendState) (line : String) : BackendState × List Effect :=
  (s, match parseJson line with
      | some j => lineEffects j
      | none => [])

/-- Model of the reader thread's termination (end-of-stream or read
error ends the `for line in reader.lines()` loop): it only logs a
warning; in particular `daemon_stdin` is not cleared. -/
def readerLoopEnd (s : BackendState) : BackendState × List Effect :=
  (s, [Effect.logWarn "Daemon stdout reader ended"])

/-- Model of the startup model-load step in `run` (lines 670-681): when a
stdin handle is cached, send `load_model` with the configured model and
set `model_loaded := true` (regardless of the send result, and without
waiting for any worker status event); otherwise do nothing. -/
def load_model_step (s : BackendState) : BackendState × List Effect :=
  match s.daemon_stdin with
  | some healthy =>
      ({ s with model_loaded := true },
        (send_daemon_command healthy (ProtocolCommand.loadModel s.config.model)).2 ++
          [Effect.logInfo "Model load command sent"])
  | none => (s, [])

/-! ## Concrete fixture states -/

/-- Idle session with no worker handle cached. -/
def idleNoWorker : BackendState :=
  { is_recording := false, recording_start := none, daemon_stdin := none,
    config := defaultConfig, model_loaded := false }

/-- Idle session whose cached worker pipe is dead (worker lost): a handle
is still cached but writes to it fail. -/
def lostWorker : BackendState :=
  { is_recording := false, recording_start := none, daemon_stdin := some false,
    config := defaultConfig, model_loaded := false }

/-- Idle session with a healthy worker. -/
def idleWithWorker : BackendState :=
  { is_recording := false, recording_start := none, daemon_stdin := some true,
    config := defaultConfig, model_loaded := false }

/-- Recording session with a healthy worker, started at tick 0. -/
def recordingWithWorker : BackendState :=
  { is_recording := true, recording_start := some 0, daemon_stdin := some true,
    config := defaultConfig, model_loaded := true }

/-- Whether an effect is one of the delayed UI-reset effects (sleep or
overlay hide), the only timer-like mechanism in the handlers. -/
def Effect.isDelayedReset : Effect → Bool
  | Effect.sleepSecs _ => true
  | Effect.overlayHide => true
  | _ => false

/-! ## Claim C1 -/

/-- Claim C1 counterexample: a press edge while Idle with no worker
running (`daemon_stdin = none`) does not merely log and stay Idle: the
handler sets the recording flag, records the start timestamp, shows the
overlay and emits `recording_started`. -/
theorem press_idle_no_worker_still_records :
    (on_press 5 idleNoWorker).1.is_recording = true ∧
    (on_press 5 idleNoWorker).1.recording_start = some 5 ∧
    Effect.overlayShow ∈ (on_press 5 idleNoWorker).2 ∧
    Effect.emit UiEvent.recording_started ∈ (on_press 5 idleNoWorker).2 := by
  decide

/-- Claim C1 amended: on a press edge received while Idle with no worker
running, the command send is skipped with an error log, but the session
still transitions to Recording: the recording flag is set, the start
timestamp is recorded, the capture indicator is shown and
`recording_started` is emitted; no write to the command sink occurs. -/
theorem press_without_worker_records_anyway (now : Nat) (s : BackendState)
    (hrec : s.is_recording = false) (hstdin : s.daemon_stdin = none) :
    on_press now s =
      ({ s with is_recording := true, recording_start := some now },
       [Effect.logError "Daemon not running!", Effect.logInfo "Recording started",
        Effect.overlayShow, Effect.emit UiEvent.recording_started]) := by
  simp [on_press, hrec, hstdin]

/-- Witness for the amended claim C1 theorem at a concrete input. -/
theorem press_without_worker_records_anyway_witness :
    on_press 7 idleNoWorker =
      ({ idleNoWorker with is_recording := true, recording_start := some 7 },
       [Effect.logError "Daemon not running!", Effect.logInfo "Recording started",
        Effect.overlayShow, Effect.emit UiEvent.recording_started]) :=
  press_without_worker_records_anyway 7 idleNoWorker rfl rfl

/-! ## Claim C2 -/

/-- Claim C2 counterexample: with the worker lost (reader loop ended,
pipe dead), the cached sink handle is still present afterwards, and a
subsequent press edge still attempts to write to the dead pipe (the
failure is only logged) instead of failing fast. -/
theorem worker_lost_sink_not_cleared :
    (readerLoopEnd lostWorker).1.daemon_stdin = some false ∧
    (on_press 0 lostWorker).1.daemon_stdin = some false ∧
    Effect.sinkWrite (encodeCommand (ProtocolCommand.startRecording none) ++ "\n") ∈
      (on_press 0 lostWorker).2 ∧
    Effect.logError "Failed to send command to daemon" ∈ (on_press 0 lostWorker).2 := by
  decide

/-- Claim C2 amended: nothing ever clears the cached command sink. The
reader loop's termination only logs a warning and leaves the state
unchanged, per-line reader processing never touches the state, and the
press, release and model-load paths all preserve `daemon_stdin` (a failed
write inside `send_daemon_command` is logged and reported by its `false`
result, which every caller ignores); subsequent commands therefore
re-attempt writes on the dead pipe rather than failing fast. -/
theorem daemon_stdin_never_cleared (s : BackendState) (now : Nat) :
    (readerLoopEnd s).1 = s ∧
    (∀ line, (readerStep s line).1 = s) ∧
    (on_press now s).1.daemon_stdin = s.daemon_stdin ∧
    (on_release now s).1.daemon_stdin = s.daemon_stdin ∧
    (load_model_step s).1.daemon_stdin = s.daemon_stdin := by
  refine ⟨rfl, fun line => rfl, ?_, ?_, ?_⟩
  · by_cases h : s.is_recording <;> simp [on_press, h]
  · by_cases h : s.is_recording <;> rcases hd : s.daemon_stdin with _ | healthy <;>
      simp [on_release, h, hd]
  · rcases hd : s.daemon_stdin with _ | healthy <;> simp [load_model_step, hd]

/-! ## Claim C3 -/

/-- Claim C3, code evaluated at the failing input: releasing at tick 2 a
recording started at tick 0 with a healthy worker sends
`stop_and_transcribe` and emits `transcription_started`, but schedules no
fallback timer at all — the produced effects are exactly the five below,
and none of them is a delayed UI reset. If the worker never produces a
terminal event, nothing forces the UI back to Idle. -/
theorem release_with_worker_no_fallback_timer :
    on_release 2 recordingWithWorker =
      ({ recordingWithWorker with is_recording := false },
       [Effect.logInfo "Recording stopped", Effect.emit (UiEvent.recording_stopped 2),
        Effect.emit UiEvent.transcription_started,
        Effect.sinkWrite (encodeCommand (ProtocolCommand.stopAndTranscribe "clipboard") ++ "\n"),
        Effect.sinkFlush]) ∧
    (on_release 2 recordingWithWorker).2.countP Effect.isDelayedReset = 0 := by
  decide

/-! ## Claim C4 -/

/-- Claim C4: with a worker handle cached, two consecutive press edges
with no intervening release issue exactly one `start_recording` write:
the first press issues it, and the second press edge (recording already
true) is a no-op that changes nothing and emits nothing, so at most one
recording session exists at a time. -/
theorem double_press_single_start_recording (s : BackendState) (t1 t2 : Nat) (h : Bool)
    (hrec : s.is_recording = false) (hstdin : s.daemon_stdin = some h) :
    (on_press t2 (on_press t1 s).1).1 = (on_press t1 s).1 ∧
    (on_press t2 (on_press t1 s).1).2 = [] ∧
    ((on_press t1 s).2 ++ (on_press t2 (on_press t1 s).1).2).countP Effect.isSinkWrite = 1 ∧
    Effect.sinkWrite (encodeCommand (ProtocolCommand.startRecording s.config.device_id) ++ "\n")
      ∈ (on_press t1 s).2 := by
  cases h <;>
    simp [on_press, hrec, hstdin, send_daemon_command, List.countP_cons, Effect.isSinkWrite]

/-- Witness for claim C4 at a concrete input. -/
theorem double_press_single_start_recording_witness :
    (on_press 4 (on_press 1 idleWithWorker).1).1 = (on_press 1 idleWithWorker).1 ∧
    (on_press 4 (on_press 1 idleWithWorker).1).2 = [] ∧
    ((on_press 1 idleWithWorker).2 ++
      (on_press 4 (on_press 1 idleWithWorker).1).2).countP Effect.isSinkWrite = 1 ∧
    Effect.sinkWrite
        (encodeCommand (ProtocolCommand.startRecording idleWithWorker.config.device_id) ++ "\n")
      ∈ (on_press 1 idleWithWorker).2 :=
  double_press_single_start_recording idleWithWorker 1 4 true rfl rfl

/-! ## Claim C5 -/

/-- Claim C5 counterexample: the startup model-load step sets
`model_loaded := true` merely because the `load_model` command was issued
(no worker report has arrived), while processing the worker's
`"model_loaded"` status line leaves the flag untouched — it only emits
the `model_ready` UI notification. -/
theorem model_loaded_set_by_command_not_status :
    idleWithWorker.model_loaded = false ∧
    (load_model_step idleWithWorker).1.model_loaded = true ∧
    (readerStep idleWithWorker "\x7b\"status\":\"model_loaded\"\x7d").1.model_loaded = false ∧
    (readerStep idleWithWorker "\x7b\"status\":\"model_loaded\"\x7d").2 =
      [Effect.logInfo "Daemon status", Effect.emit UiEvent.model_ready] := by
  decide

/-- Claim C5 amended: `model_loaded` is set true exactly when the startup
sequence issues the `load_model` command (a stdin handle is cached),
regardless of any worker report; the worker's `"model_loaded"` status
event never modifies the session state — the reader leaves the state
unchanged on every line and only emits the `model_ready` notification. -/
theorem model_loaded_tracks_command_issue (s : BackendState) (line : String) :
    (readerStep s line).1 = s ∧
    (s.daemon_stdin.isSome → (load_model_step s).1.model_loaded = true) ∧
    (s.daemon_stdin = none → load_model_step s = (s, [])) := by
  refine ⟨rfl, ?_, ?_⟩
  · intro hsome
    rcases hd : s.daemon_stdin with _ | healthy
    · rw [hd] at hsome; simp at hsome
    · simp [load_model_step, hd]
  · intro hnone
    simp [load_model_step, hnone]

/-- Witness for the amended claim C5 theorem at a concrete input: the
pipe is even dead, yet issuing the command still sets the flag. -/
theorem model_loaded_tracks_command_issue_witness :
    (readerStep lostWorker "\x7b\"status\":\"model_loaded\"\x7d").1 = lostWorker ∧
    (load_model_step lostWorker).1.model_loaded = true :=
  ⟨(model_loaded_tracks_command_issue lostWorker "\x7b\"status\":\"model_loaded\"\x7d").1,
   (model_loaded_tracks_command_issue lostWorker "\x7b\"status\":\"model_loaded\"\x7d").2.1
     (by decide)⟩

/-! ## Claim C6 -/

/-- Claim C6: encoding `start_recording` with device id 3 produces the
single JSON line with the `cmd` and `device` members, terminated by one
newline and immediately followed by a flush; and decoding the event line
carrying text `"hello"`, `copied` true, `typed` false and
`transcription_time` 1.2 yields exactly one `transcriptionResult` event
with those fields, whose elapsed seconds decimal means 1.2 = 6/5. -/
theorem protocol_round_trip :
    send_daemon_command true (ProtocolCommand.startRecording (some 3)) =
      (true,
       [Effect.sinkWrite "\x7b\"cmd\":\"start_recording\",\"device\":3\x7d\n",
        Effect.sinkFlush]) ∧
    (parseJson
        "\x7b\"text\":\"hello\",\"copied\":true,\"typed\":false,\"transcription_time\":1.2\x7d").map
        decodeLine =
      some [ProtocolEvent.transcriptionResult "hello" true false ⟨12, 1⟩] ∧
    (JNumber.mk 12 1).toRat = 6 / 5 := by
  refine ⟨by decide, by decide, ?_⟩
  norm_num [JNumber.toRat]

/-! ## Claim C7 -/

/-- Claim C7: on a line in which several recognized fields are present at
once (here all four: `audio_level`, `status`, `text`, `error`), each
field is processed independently by its own block — the decode yields one
event per present field, in source order, and the reader consequently
emits more than one UI notification for the single line. Decoding is a
total function, so no crash is possible. -/
theorem multi_field_line_processed_independently (j : Json) (v : JNumber) (n t m : String)
    (ha : (jget j "audio_level").bind Json.asF64 = some v)
    (hs : (jget j "status").bind Json.asStr = some n)
    (ht : (jget j "text").bind Json.asStr = some t)
    (he : (jget j "error").bind Json.asStr = some m) :
    decodeLine j =
      [ProtocolEvent.audioLevel v, ProtocolEvent.statusChanged n,
       ProtocolEvent.transcriptionResult t (((jget j "copied").bind Json.asBool).getD false)
         (((jget j "typed").bind Json.asBool).getD false)
         (((jget j "transcription_time").bind Json.asF64).getD ⟨0, 0⟩),
       ProtocolEvent.transcriptionError m] ∧
    2 ≤ (lineEffects j).countP Effect.isEmit := by
  have hdec : decodeLine j =
      [ProtocolEvent.audioLevel v, ProtocolEvent.statusChanged n,
       ProtocolEvent.transcriptionResult t (((jget j "copied").bind Json.asBool).getD false)
         (((jget j "typed").bind Json.asBool).getD false)
         (((jget j "transcription_time").bind Json.asF64).getD ⟨0, 0⟩),
       ProtocolEvent.transcriptionError m] := by
    simp [decodeLine, ha, hs, ht, he]
  refine ⟨hdec, ?_⟩
  by_cases hn : n = "model_loaded" <;>
    simp [lineEffects, hdec, renderEvent, hn, List.countP_cons, Effect.isEmit]

/-- Witness for claim C7 at a concrete four-field line. -/
theorem multi_field_line_processed_independently_witness :
    decodeLine (Json.obj [("audio_level", Json.num ⟨4, 1⟩), ("status", Json.str "loading"),
        ("text", Json.str "hi"), ("error", Json.str "oops")]) =
      [ProtocolEvent.audioLevel ⟨4, 1⟩, ProtocolEvent.statusChanged "loading",
       ProtocolEvent.transcriptionResult "hi" false false ⟨0, 0⟩,
       ProtocolEvent.transcriptionError "oops"] ∧
    2 ≤ (lineEffects (Json.obj [("audio_level", Json.num ⟨4, 1⟩), ("status", Json.str "loading"),
        ("text", Json.str "hi"), ("error", Json.str "oops")])).countP Effect.isEmit :=
  multi_field_line_processed_independently
    (Json.obj [("audio_level", Json.num ⟨4, 1⟩), ("status", Json.str "loading"),
      ("text", Json.str "hi"), ("error", Json.str "oops")])
    ⟨4, 1⟩ "loading" "hi" "oops" rfl rfl rfl rfl

/-! ## Claim C8 -/

/-- Claim C8: a line that is not valid JSON, or that parses to a value in
which none of the recognized fields (`audio_level`, `status`, `text`,
`error`) is present, is discarded silently: the reader step produces no
effect at all — no notification, no error — and the state is unchanged. -/
theorem unrecognized_line_discarded (s : BackendState) (line : String)
    (h : parseJson line = none ∨
      ∃ j, parseJson line = some j ∧ jget j "audio_level" = none ∧ jget j "status" = none ∧
        jget j "text" = none ∧ jget j "error" = none) :
    readerStep s line = (s, []) := by
  rcases h with hnone | ⟨j, hj, ha, hs, ht, he⟩
  · simp [readerStep, hnone]
  · simp [readerStep, hj, lineEffects, decodeLine, ha, hs, ht, he]

/-- Witness for claim C8: a line that is not JSON at all. -/
theorem unrecognized_line_discarded_witness :
    readerStep idleNoWorker "not json" = (idleNoWorker, []) :=
  unrecognized_line_discarded idleNoWorker "not json" (Or.inl rfl)

/-! ## Claim C9 -/

/-- Claim C9: a release edge while Idle (`is_recording = false`) is a
complete no-op: the state is returned unchanged and no effect — no
command write, no notification, no log — is produced. -/
theorem stray_release_noop (s : BackendState) (now : Nat)
    (hrec : s.is_recording = false) :
    on_release now s = (s, []) := by
  simp [on_release, hrec]

/-- Witness for claim C9 at a concrete input. -/
theorem stray_release_noop_witness :
    on_release 9 idleWithWorker = (idleWithWorker, []) :=
  stray_release_noop idleWithWorker 9 rfl

/-! ## Claim C10 -/

/-- Claim C10: a line carrying a `text` field whose `copied`, `typed` and
`transcription_time` fields are absent decodes to a transcription result
with the flags defaulted to `false` and the elapsed time defaulted to
0.0, instead of being rejected. -/
theorem text_line_missing_fields_default (j : Json) (t : String)
    (ht : (jget j "text").bind Json.asStr = some t)
    (hc : jget j "copied" = none) (hy : jget j "typed" = none)
    (he : jget j "transcription_time" = none) :
    ProtocolEvent.transcriptionResult t false false ⟨0, 0⟩ ∈ decodeLine j := by
  simp [decodeLine, ht, hc, hy, he]

/-- Witness for claim C10 at a concrete line carrying only `text`. -/
theorem text_line_missing_fields_default_witness :
    ProtocolEvent.transcriptionResult "hi" false false ⟨0, 0⟩ ∈
      decodeLine (Json.obj [("text", Json.str "hi")]) :=
  text_line_missing_fields_default (Json.obj [("text", Json.str "hi")]) "hi" rfl rfl rfl rfl
